import Mathlib

/-!
Shallow embedding of `src/reuse/global_licensing.py` (REUSE tool): parsing and
validating REUSE.toml / .reuse/dep5 global licensing declarations.

Modelling conventions:
* Python values that flow through the untyped dict layer are modelled by the
  inductive `PyValue` (`None`, `bool`, `int`, `str`, `list`, `dict`).
* Python exceptions are modelled by the inductive `PyError`; a function that can
  raise returns `Except PyError _`.  Re-raising propagates the same value;
  wrapping builds a new `PyError` constructor, mirroring the `try`/`except`
  structure of the source.
* Python `set` objects are modelled as duplicate-free `List`s in insertion
  order (iteration order of a CPython set is unspecified; we fix a canonical
  order).  Building a set hashes each element, so an unhashable element (a
  `list` or `dict`) raises `TypeError`; element equality is structural.
* External collaborators that are not part of this file's source
  (`_LICENSING.parse` from license_expression, `tomlkit.loads`,
  `debian.copyright.Copyright`, the file system) are parameters of the
  functions that call them, so every claim is stated for all behaviours of the
  collaborator.
-/

/-- A Python value as it appears after TOML loading / in untyped dicts. -/
inductive PyValue where
  | none
  | bool (b : Bool)
  | int (n : Int)
  | str (s : String)
  | list (xs : List PyValue)
  | dict (kvs : List (String × PyValue))

mutual

/-- Structural equality on `PyValue` (models Python `==` on these shapes). -/
def PyValue.beq : PyValue → PyValue → Bool
  | .none, .none => true
  | .bool a, .bool b => a == b
  | .int a, .int b => a == b
  | .str a, .str b => a == b
  | .list xs, .list ys => PyValue.beqList xs ys
  | .dict xs, .dict ys => PyValue.beqKVs xs ys
  | _, _ => false

/-- Pointwise equality of lists of `PyValue`. -/
def PyValue.beqList : List PyValue → List PyValue → Bool
  | [], [] => true
  | x :: xs, y :: ys => PyValue.beq x y && PyValue.beqList xs ys
  | _, _ => false

/-- Pointwise equality of association lists of `String × PyValue`. -/
def PyValue.beqKVs : List (String × PyValue) → List (String × PyValue) → Bool
  | [], [] => true
  | (k, v) :: xs, (l, w) :: ys => k == l && PyValue.beq v w && PyValue.beqKVs xs ys
  | _, _ => false

end

theorem PyValue.beq_eq_true_iff :
    ∀ a b : PyValue, (PyValue.beq a b = true ↔ a = b) := by
  have H := PyValue.beq.induct
    (fun a b => PyValue.beq a b = true ↔ a = b)
    (fun xs ys => PyValue.beqKVs xs ys = true ↔ xs = ys)
    (fun xs ys => PyValue.beqList xs ys = true ↔ xs = ys)
  apply H
  · simp [PyValue.beq]
  · intro a b; simp [PyValue.beq]
  · intro a b; simp [PyValue.beq]
  · intro a b; simp [PyValue.beq]
  · intro xs ys ih; simpa [PyValue.beq] using ih
  · intro xs ys ih; simpa [PyValue.beq] using ih
  · intro t x h1 h2 h3 h4 h5 h6
    have hne : t ≠ x := by
      intro heq
      subst heq
      cases t with
      | none => exact h1 rfl rfl
      | bool b => exact h2 b b rfl rfl
      | int n => exact h3 n n rfl rfl
      | str s => exact h4 s s rfl rfl
      | list xs => exact h5 xs xs rfl rfl
      | dict kvs => exact h6 kvs kvs rfl rfl
    have hf : PyValue.beq t x = false := by
      cases t <;> cases x <;>
        first
          | rfl
          | exact (h1 rfl rfl).elim
          | exact (h2 _ _ rfl rfl).elim
          | exact (h3 _ _ rfl rfl).elim
          | exact (h4 _ _ rfl rfl).elim
          | exact (h5 _ _ rfl rfl).elim
          | exact (h6 _ _ rfl rfl).elim
    simp [hf, hne]
  · simp [PyValue.beqList]
  · intro x xs y ys ih1 ih2
    simp [PyValue.beqList, ih1, ih2]
  · intro t x h1 h2
    rcases t with _ | ⟨a, as⟩ <;> rcases x with _ | ⟨b, bs⟩
    · exact (h1 rfl rfl).elim
    · simp [PyValue.beqList]
    · simp [PyValue.beqList]
    · exact (h2 a as b bs rfl rfl).elim
  · simp [PyValue.beqKVs]
  · intro k v xs l w ys ih1 ih2
    simp only [PyValue.beqKVs, Bool.and_eq_true, beq_iff_eq, ih1, ih2,
      List.cons.injEq, Prod.mk.injEq, and_assoc]
  · intro t x h1 h2
    rcases t with _ | ⟨⟨k, v⟩, xs⟩ <;> rcases x with _ | ⟨⟨l, w⟩, ys⟩
    · exact (h1 rfl rfl).elim
    · simp [PyValue.beqKVs]
    · simp [PyValue.beqKVs]
    · exact (h2 k v xs l w ys rfl rfl).elim

instance : DecidableEq PyValue :=
  fun a b => decidable_of_iff (PyValue.beq a b = true) (PyValue.beq_eq_true_iff a b)

/-- Helper for `pySet`: accumulate elements not seen before, keeping first
occurrences.  Models building a Python `set` by iterated insertion. -/
def pySetGo {α : Type} [DecidableEq α] : List α → List α → List α
  | _, [] => []
  | seen, x :: xs =>
      if x ∈ seen then pySetGo seen xs else x :: pySetGo (x :: seen) xs

/-- A Python `set(...)` built from an iterable: the elements with duplicates
removed, first occurrence kept. -/
def pySet {α : Type} [DecidableEq α] (xs : List α) : List α :=
  pySetGo [] xs

theorem pySetGo_mem {α : Type} [DecidableEq α] (xs : List α) :
    ∀ (seen : List α) (a : α), a ∈ pySetGo seen xs ↔ a ∈ xs ∧ a ∉ seen := by
  induction xs with
  | nil => intro seen a; simp [pySetGo]
  | cons x xs ih =>
      intro seen a
      simp only [pySetGo]
      split
      · rename_i hx
        rw [ih]
        simp only [List.mem_cons]
        constructor
        · rintro ⟨hmem, hns⟩
          exact ⟨Or.inr hmem, hns⟩
        · rintro ⟨rfl | hmem, hns⟩
          · exact absurd hx hns
          · exact ⟨hmem, hns⟩
      · rename_i hx
        simp only [List.mem_cons, ih]
        constructor
        · rintro (rfl | ⟨hmem, hns⟩)
          · exact ⟨Or.inl rfl, hx⟩
          · exact ⟨Or.inr hmem, fun hc => hns (Or.inr hc)⟩
        · rintro ⟨rfl | hmem, hns⟩
          · exact Or.inl rfl
          · by_cases hax : a = x
            · exact Or.inl hax
            · exact Or.inr ⟨hmem, fun hc => hc.elim hax hns⟩

theorem pySet_mem {α : Type} [DecidableEq α] (xs : List α) (a : α) :
    a ∈ pySet xs ↔ a ∈ xs := by
  simp [pySet, pySetGo_mem]

theorem pySetGo_nodup {α : Type} [DecidableEq α] (xs : List α) :
    ∀ seen : List α, (pySetGo seen xs).Nodup := by
  induction xs with
  | nil => intro seen; simp [pySetGo]
  | cons x xs ih =>
      intro seen
      simp only [pySetGo]
      split
      · exact ih seen
      · refine List.nodup_cons.mpr ⟨fun hc => ?_, ih (x :: seen)⟩
        exact ((pySetGo_mem xs (x :: seen) x).mp hc).2 (List.mem_cons_self x seen)

theorem pySet_nodup {α : Type} [DecidableEq α] (xs : List α) :
    (pySet xs).Nodup :=
  pySetGo_nodup xs []

/-- Python exception values relevant to `global_licensing.py`.  Subclassing:
`GlobalLicensingParseError` subclasses only `Exception` (line 26 of the
source), so none of the built-in error kinds is a `GlobalLicensingParseError`. -/
inductive PyError where
  | unicodeDecodeError
  | fileNotFoundError
  | osError (msg : String)
  | typeError (msg : String)
  | valueError (msg : String)
  | attributeError
  | debianError (msg : String)
  | expressionError (msg : String)
  | booleanParseError (msg : String)
  | globalLicensingParseError (msg : String)
  | notImplementedError
deriving DecidableEq

/-- Whether an exception is (an instance of a subclass of)
`GlobalLicensingParseError`: only that class itself, per the source's class
hierarchy. -/
def PyError.isGlobalLicensingParseError : PyError → Bool
  | .globalLicensingParseError _ => true
  | _ => false

/-- Whether an exception is caught by `except (ExpressionError, ParseError)`
in `_str_to_set_of_expr`: the license_expression `ExpressionError` or the
boolean-library `ParseError`. -/
def PyError.caughtByExpressionExcept : PyError → Bool
  | .expressionError _ => true
  | .booleanParseError _ => true
  | _ => false

/-- Whether an `Except` outcome is an error (a raised exception). -/
def exceptIsError {e a : Type} : Except e a → Bool
  | Except.error _ => true
  | Except.ok _ => false

/-- Drop leading whitespace characters from a character list. -/
def dropLeadingWs : List Char → List Char
  | [] => []
  | c :: cs => if c.isWhitespace then dropLeadingWs cs else c :: cs

/-- Python `str.strip()`: leading and trailing whitespace removed. -/
def pyStrip (s : String) : String :=
  String.mk ((dropLeadingWs ((dropLeadingWs s.data).reverse)).reverse)

/-- Split a character list on a separator character; like Python
`str.split(sep)`, empty segments included. -/
def splitOnChar (sep : Char) : List Char → List (List Char)
  | [] => [[]]
  | c :: cs =>
      let rest := splitOnChar sep cs
      if c = sep then [] :: rest
      else
        match rest with
        | [] => [[c]]
        | r :: rs => (c :: r) :: rs

/-- Python `str.splitlines()` for newline-separated text: split on the line
separator, with no empty final line when the text ends in a newline. -/
def pySplitlines (s : String) : List String :=
  match s.data with
  | [] => []
  | cs =>
      let segs := splitOnChar (Char.ofNat 10) cs
      let segs := if cs.getLast? = some (Char.ofNat 10) then segs.dropLast else segs
      segs.map String.mk

/-- Join path components with `/` separators. -/
def joinWithSlash : List (List Char) → List Char
  | [] => []
  | [c] => c
  | c :: cs => c ++ Char.ofNat 47 :: joinWithSlash cs

/-- `PurePath(path).as_posix()` with the posix flavour: empty and `.`
components are dropped, a leading `/` (or the special exactly-two-slash root
`//`) is kept, and an empty result is the path `.`. -/
def purePathAsPosix (s : String) : String :=
  let slash := Char.ofNat 47
  let cs := s.data
  let comps := (splitOnChar slash cs).filter (fun c => c ≠ [] ∧ c ≠ ['.'])
  let root : List Char :=
    match cs with
    | '/' :: '/' :: '/' :: _ => [slash]
    | '/' :: '/' :: _ => [slash, slash]
    | '/' :: _ => [slash]
    | _ => []
  if root = [] ∧ comps = [] then "."
  else String.mk (root ++ joinWithSlash comps)

/-- An untyped Python dict with string keys, as produced by `tomlkit.loads`
for a TOML table (keys are assumed distinct, as in a dict). -/
abbrev PyDict := List (String × PyValue)

/-- Python `values.get(key)`: the binding of *key*, `None` when absent. -/
def pyGet (values : PyDict) (key : String) : PyValue :=
  match values.find? (fun kv => kv.1 == key) with
  | some kv => kv.2
  | Option.none => PyValue.none

/-- Python `values.get(key, dflt)`: the binding of *key*, *dflt* when absent. -/
def pyGetD (values : PyDict) (key : String) (dflt : PyValue) : PyValue :=
  match values.find? (fun kv => kv.1 == key) with
  | some kv => kv.2
  | Option.none => dflt

/-- An opaque parsed SPDX license expression (a `boolean.Expression` as
returned by `_LICENSING.parse`); equality is structural on the parsed form. -/
structure Expression where
  parsed : String
deriving DecidableEq

/-- The closed value set of the `Literal["aggregate", "file", "toml"]` type
annotation on `AnnotationsItem.precedence`. -/
inductive Precedence where
  | aggregate
  | file
  | toml
deriving DecidableEq

/-- Modelled from the spec: the `SourceType` tag imported from the package
root (`reuse/__init__.py` is not among the examined sources) naming which
declaration mechanism produced a `ReuseInfo` (legacy dep5 table vs in-file
header). -/
inductive SourceType where
  | dep5
  | fileHeader
deriving DecidableEq

/-- Modelled from the spec: `ReuseInfo`, imported from the package root
(`reuse/__init__.py` is not among the examined sources): the resolver output
unit holding a set of license expressions, a set of copyright lines, the
queried path and the source tag/path of the producing declaration mechanism;
every field defaults to empty/absent so that `ReuseInfo()` is the empty
result. -/
structure ReuseInfo where
  spdx_expressions : List Expression := []
  copyright_lines : List String := []
  path : Option String := Option.none
  source_type : Option SourceType := Option.none
  source_path : Option String := Option.none
deriving DecidableEq

/-- Whether a Python value is hashable: `None`, `bool`, `int` and `str` are;
`list` and `dict` are not, so `set(...)` raises `TypeError` on them. -/
def PyValue.hashable : PyValue → Bool
  | .list _ => false
  | .dict _ => false
  | _ => true

/-- Python `set(iterable)`: insert each element in order, hashing it first —
the first unhashable element raises `TypeError` — and deduplicating the
rest. -/
def pySetCheckedGo : List PyValue → List PyValue → Except PyError (List PyValue)
  | _, [] => Except.ok []
  | seen, x :: xs =>
      if PyValue.hashable x then
        if x ∈ seen then pySetCheckedGo seen xs
        else
          match pySetCheckedGo (x :: seen) xs with
          | Except.error e => Except.error e
          | Except.ok rest => Except.ok (x :: rest)
      else Except.error (PyError.typeError "unhashable type")

/-- Python `set(xs)` from a list of values, with the hashability check. -/
def pySetChecked (xs : List PyValue) : Except PyError (List PyValue) :=
  pySetCheckedGo [] xs

theorem pySetCheckedGo_ok (xs : List PyValue) :
    ∀ seen, (∀ x ∈ xs, PyValue.hashable x = true) →
      pySetCheckedGo seen xs = Except.ok (pySetGo seen xs) := by
  induction xs with
  | nil => intro seen h; rfl
  | cons x xs ih =>
      intro seen h
      have hx : PyValue.hashable x = true := h x (List.mem_cons_self x xs)
      have ht : ∀ y ∈ xs, PyValue.hashable y = true :=
        fun y hy => h y (List.mem_cons_of_mem x hy)
      by_cases hmem : x ∈ seen
      · simp [pySetCheckedGo, pySetGo, hx, hmem, ih seen ht]
      · simp [pySetCheckedGo, pySetGo, hx, hmem, ih (x :: seen) ht]

theorem pySetCheckedGo_error (xs : List PyValue) :
    ∀ seen, (∃ x ∈ xs, PyValue.hashable x = false) →
      pySetCheckedGo seen xs
        = Except.error (PyError.typeError "unhashable type") := by
  induction xs with
  | nil => intro seen h; simp at h
  | cons x xs ih =>
      intro seen h
      by_cases hx : PyValue.hashable x = true
      · have ht : ∃ y ∈ xs, PyValue.hashable y = false := by
          obtain ⟨y, hy, hyf⟩ := h
          rcases List.mem_cons.mp hy with rfl | hy2
          · rw [hx] at hyf
            exact Bool.noConfusion hyf
          · exact ⟨y, hy2, hyf⟩
        by_cases hmem : x ∈ seen
        · simp [pySetCheckedGo, hx, hmem, ih seen ht]
        · simp [pySetCheckedGo, hx, hmem, ih (x :: seen) ht]
      · have hx2 : PyValue.hashable x = false := by
          cases hq : PyValue.hashable x
          · rfl
          · exact absurd hq hx
        simp [pySetCheckedGo, hx2]

/-- `_str_to_set` (source lines 156-161): a `str` becomes a singleton set,
any other value with `__iter__` (here: `list`, and `dict`, which iterates
over its keys) is consumed into a set, and any remaining scalar becomes a
singleton set.  Building the set hashes every inserted element, so a list
containing an unhashable element (a `list` or a `dict`) raises `TypeError`;
dict keys are strings and the remaining scalars are all hashable. -/
def _str_to_set (value : PyValue) : Except PyError (List PyValue) :=
  match value with
  | .str _ => Except.ok [value]
  | .list xs => pySetChecked xs
  | .dict kvs => Except.ok (pySet (kvs.map (fun kv => PyValue.str kv.1)))
  | _ => Except.ok [value]

/-- `_validate_collection_of_type` specialised to `_validate_set_of_str`
(source lines 100-126): every item of the converted set must be a `str`,
otherwise `TypeError` is raised at the first offending item.  The
`isinstance(value, set)` check always succeeds here because the converter
`_str_to_set` produced the set.  The checked strings are returned as the
field's typed value. -/
def _validate_set_of_str (name : String) : List PyValue → Except PyError (List String)
  | [] => Except.ok []
  | x :: xs =>
      match x with
      | .str s =>
          match _validate_set_of_str name xs with
          | Except.ok ss => Except.ok (s :: ss)
          | Except.error e => Except.error e
      | _ =>
          Except.error
            (PyError.typeError ("Item in " ++ name ++ " collection must be a str"))

/-- `_validate_literal` (source lines 145-153) on the `precedence` field: the
value must equal one of the `Literal` arguments `aggregate`, `file`, `toml`,
otherwise a plain `ValueError` is raised. -/
def _validate_literal (value : PyValue) : Except PyError Precedence :=
  match value with
  | .str "aggregate" => Except.ok Precedence.aggregate
  | .str "file" => Except.ok Precedence.file
  | .str "toml" => Except.ok Precedence.toml
  | _ =>
      Except.error
        (PyError.valueError
          "The value of precedence must be one of aggregate, file, toml")

/-- The `for expression in value` loop body of `_str_to_set_of_expr` (source
lines 166-177): parse each element with `_LICENSING.parse`, propagating the
first failure (the `except` clause only logs and re-raises). -/
def parseExprLoop (parse : PyValue → Except PyError Expression) :
    List PyValue → Except PyError (List Expression)
  | [] => Except.ok []
  | x :: xs =>
      match parse x with
      | Except.error e => Except.error e
      | Except.ok v =>
          match parseExprLoop parse xs with
          | Except.error e => Except.error e
          | Except.ok vs => Except.ok (v :: vs)

/-- `_str_to_set_of_expr` (source lines 164-177): coerce the raw value to a
set with `_str_to_set` (propagating its `TypeError` on unhashable elements),
then parse every element, collecting the results in a set of (hashable)
`Expression` values; the first parse failure aborts the whole conversion. -/
def _str_to_set_of_expr (parse : PyValue → Except PyError Expression)
    (value : PyValue) : Except PyError (List Expression) :=
  match _str_to_set value with
  | Except.error e => Except.error e
  | Except.ok elems =>
      match parseExprLoop parse elems with
      | Except.error e => Except.error e
      | Except.ok vs => Except.ok (pySet vs)

/-- `AnnotationsItem` (source lines 180-197) with its four attrs fields,
holding the converted and validated values. -/
structure AnnotationsItem where
  paths : List String
  precedence : Precedence
  copyright_lines : List String
  spdx_expressions : List Expression
deriving DecidableEq

/-- The attrs-generated constructor of `AnnotationsItem`: the generated
`__init__` first applies every field's converter inline with the assignments,
in declaration order (`paths`, `precedence` — no converter —
`copyright_lines`, `spdx_expressions`), and only then runs all validators in
one block at the end, again in declaration order; the first exception at any
stage aborts construction.  The `_validate_set_of_expr` validator on the last
field always passes because its converter only produces `Expression`
values. -/
def mkAnnotationsItem (parse : PyValue → Except PyError Expression)
    (paths precedence copyright_lines spdx_expressions : PyValue) :
    Except PyError AnnotationsItem :=
  match _str_to_set paths with
  | Except.error e => Except.error e
  | Except.ok pset =>
      match _str_to_set copyright_lines with
      | Except.error e => Except.error e
      | Except.ok cset =>
          match _str_to_set_of_expr parse spdx_expressions with
          | Except.error e => Except.error e
          | Except.ok exprs =>
              match _validate_set_of_str "paths" pset with
              | Except.error e => Except.error e
              | Except.ok ps =>
                  match _validate_literal precedence with
                  | Except.error e => Except.error e
                  | Except.ok prec =>
                      match _validate_set_of_str "copyright_lines" cset with
                      | Except.error e => Except.error e
                      | Except.ok cps => Except.ok ⟨ps, prec, cps, exprs⟩

/-- `AnnotationsItem.from_dict` (source lines 199-209): read the four
recognised keys (each `None` when absent) and call the attrs constructor with
them. -/
def AnnotationsItem.from_dict (parse : PyValue → Except PyError Expression)
    (values : PyDict) : Except PyError AnnotationsItem :=
  mkAnnotationsItem parse (pyGet values "path") (pyGet values "precedence")
    (pyGet values "SPDX-FileCopyrightText")
    (pyGet values "SPDX-License-Identifier")

/-- `ReuseTOML` (source lines 212-222): the document source, the `version`
integer and the list of annotation items.  Python `bool` passes
`isinstance(..., int)` because `bool` subclasses `int`; its stored value
compares equal to the corresponding integer. -/
structure ReuseTOML where
  source : String
  version : Int
  annotations : List AnnotationsItem
deriving DecidableEq

/-- `attrs.validators.instance_of(int)` on `ReuseTOML.version` (source line
219): `int` values pass, `bool` values pass because `bool` subclasses `int`,
and everything else raises `TypeError`.  No value-level check of the version
number is performed. -/
def instanceOfInt : PyValue → Except PyError Int
  | .int n => Except.ok n
  | .bool b => Except.ok (if b then 1 else 0)
  | _ => Except.error (PyError.typeError "version must be an int")

/-- Python iteration over the `annotations` value: a list yields its
elements, a dict yields its keys, a str yields its one-character substrings;
any other value raises `TypeError` (not iterable). -/
def pyIter : PyValue → Except PyError (List PyValue)
  | .list xs => Except.ok xs
  | .dict kvs => Except.ok (kvs.map (fun kv => PyValue.str kv.1))
  | .str s => Except.ok (s.toList.map (fun c => PyValue.str (String.singleton c)))
  | _ => Except.error (PyError.typeError "annotations is not iterable")

/-- The `values.get(...)` calls inside `AnnotationsItem.from_dict` require
each element of `annotations` to be a dict; any other element raises
`AttributeError` at the first `.get` call. -/
def asPyDict : PyValue → Except PyError PyDict
  | .dict kvs => Except.ok kvs
  | _ => Except.error PyError.attributeError

/-- The list comprehension of `ReuseTOML.from_dict` (source lines 232-235):
build an `AnnotationsItem` from every element in order, stopping at the first
exception. -/
def annotationsLoop (parse : PyValue → Except PyError Expression) :
    List PyValue → Except PyError (List AnnotationsItem)
  | [] => Except.ok []
  | x :: xs =>
      match asPyDict x with
      | Except.error e => Except.error e
      | Except.ok d =>
          match AnnotationsItem.from_dict parse d with
          | Except.error e => Except.error e
          | Except.ok item =>
              match annotationsLoop parse xs with
              | Except.error e => Except.error e
              | Except.ok items => Except.ok (item :: items)

/-- `ReuseTOML.from_dict` (source lines 224-239): read `version` (unchecked
at this point) and `annotations` (defaulting to the empty list when absent),
build the annotation items, then run the attrs constructor, whose validators
fire in field order `source` (always a `str` here), `version`, `annotations`
(the latter always passes on a list built by the comprehension). -/
def ReuseTOML.from_dict (parse : PyValue → Except PyError Expression)
    (values : PyDict) (source : String) : Except PyError ReuseTOML :=
  match pyIter (pyGetD values "annotations" (PyValue.list [])) with
  | Except.error e => Except.error e
  | Except.ok elems =>
      match annotationsLoop parse elems with
      | Except.error e => Except.error e
      | Except.ok items =>
          match instanceOfInt (pyGet values "version") with
          | Except.error e => Except.error e
          | Except.ok v => Except.ok ⟨source, v, items⟩

/-- `ReuseTOML.from_toml` (source lines 241-245): parse the TOML text with
`tomlkit.loads` (a parameter here) and delegate to `from_dict`. -/
def ReuseTOML.from_toml (parse : PyValue → Except PyError Expression)
    (tomlLoads : String → Except PyError PyDict) (toml : String)
    (source : String) : Except PyError ReuseTOML :=
  match tomlLoads toml with
  | Except.error e => Except.error e
  | Except.ok d => ReuseTOML.from_dict parse d source

/-- `ReuseTOML.from_file` (source lines 247-250): read the file as UTF-8
(the read outcome is a parameter: decoded text or the raised error) and
delegate to `from_toml`; there is no `try` block, so any read or decode
error propagates unchanged. -/
def ReuseTOML.from_file (parse : PyValue → Except PyError Expression)
    (tomlLoads : String → Except PyError PyDict)
    (readResult : Except PyError String) (path : String) :
    Except PyError ReuseTOML :=
  match readResult with
  | Except.error e => Except.error e
  | Except.ok s => ReuseTOML.from_toml parse tomlLoads s path

/-- `ReuseTOML.reuse_info_of` (source lines 252-253): unconditionally raises
`NotImplementedError`. -/
def ReuseTOML.reuse_info_of (_self : ReuseTOML) (_path : String) :
    Except PyError ReuseInfo :=
  Except.error PyError.notImplementedError

/-- A `debian.copyright.FilesParagraph` as consumed here: the license
synopsis and the raw copyright text of one matched Files stanza. -/
structure FilesParagraph where
  license_synopsis : String
  copyright : String

/-- `debian.copyright.Copyright` as consumed here: an external object queried
through `find_files_paragraph`, modelled as that lookup function. -/
structure Copyright where
  find_files_paragraph : String → Option FilesParagraph

/-- `ReuseDep5` (source lines 58-62): the document source and the wrapped
`Copyright` object. -/
structure ReuseDep5 where
  source : String
  dep5_copyright : Copyright

/-- `ReuseDep5.from_file` (source lines 64-76): open and parse inside one
`try` block (the read outcome and the `Copyright` parser are parameters);
`UnicodeDecodeError` is re-raised unchanged, `DebianError` and `ValueError`
are wrapped into `GlobalLicensingParseError` carrying the original message,
anything else propagates. -/
def ReuseDep5.from_file (readResult : Except PyError String)
    (copyrightParse : String → Except PyError Copyright) (path : String) :
    Except PyError ReuseDep5 :=
  let attempt : Except PyError ReuseDep5 :=
    match readResult with
    | Except.error e => Except.error e
    | Except.ok s =>
        match copyrightParse s with
        | Except.error e => Except.error e
        | Except.ok c => Except.ok ⟨path, c⟩
  match attempt with
  | Except.ok d => Except.ok d
  | Except.error PyError.unicodeDecodeError =>
      Except.error PyError.unicodeDecodeError
  | Except.error (PyError.debianError m) =>
      Except.error (PyError.globalLicensingParseError m)
  | Except.error (PyError.valueError m) =>
      Except.error (PyError.globalLicensingParseError m)
  | Except.error e => Except.error e

/-- `ReuseDep5.reuse_info_of` (source lines 78-97): normalize the queried
path with `PurePath(path).as_posix()`, look it up, return the empty
`ReuseInfo` when no Files paragraph matches, and otherwise return the parsed
license synopsis, the stripped copyright lines, the normalized path, the
`DEP5` source tag and the hardcoded source path `.reuse/dep5`. -/
def ReuseDep5.reuse_info_of (parse : PyValue → Except PyError Expression)
    (self : ReuseDep5) (path : String) : Except PyError ReuseInfo :=
  let p := purePathAsPosix path
  match self.dep5_copyright.find_files_paragraph p with
  | Option.none => Except.ok {}
  | some result =>
      match parse (PyValue.str result.license_synopsis) with
      | Except.error e => Except.error e
      | Except.ok expr =>
          Except.ok
            { spdx_expressions := pySet [expr]
              copyright_lines := pySet ((pySplitlines result.copyright).map pyStrip)
              path := some p
              source_type := some SourceType.dep5
              source_path := some ".reuse/dep5" }

/-- A concrete license-expression parser used in witnesses: it parses two
known identifiers and fails on anything else with the boolean-library
`ParseError`, as `_LICENSING.parse` does on malformed expression text. -/
def pyParseStub : PyValue → Except PyError Expression
  | PyValue.str "MIT" => Except.ok ⟨"MIT"⟩
  | PyValue.str "Apache-2.0" => Except.ok ⟨"Apache-2.0"⟩
  | _ => Except.error (PyError.booleanParseError "dangling operator or unknown token")

/-- A concrete `Copyright` parser used in witnesses: one fixed input is
structurally malformed (a `DebianError`), everything else parses to an empty
table. -/
def copyrightParseStub : String → Except PyError Copyright
  | "malformed" => Except.error (PyError.debianError "not machine readable")
  | _ => Except.ok ⟨fun _ => Option.none⟩

/-- A concrete legacy document used in witnesses: one Files paragraph keyed
by the normalized path `src/main.py`. -/
def dep5Stub : ReuseDep5 :=
  ⟨"/work/project/.reuse/dep5",
   ⟨fun p =>
      if p = "src/main.py" then some ⟨"MIT", " 2023 Jane \n 2024 Ed "⟩
      else Option.none⟩⟩

/-- C7: for every `ReuseTOML` document and every queried path, the
single-document lookup `reuse_info_of` raises `NotImplementedError` instead
of returning a `ReuseInfo`. -/
theorem C7_reuse_toml_lookup_not_implemented (t : ReuseTOML) (p : String) :
    ReuseTOML.reuse_info_of t p = Except.error PyError.notImplementedError :=
  rfl

/-- C8 counterexample: `set(value)` hashes each element, so an iterable with
an unhashable element — reachable from real input, e.g. TOML
`path = [["a"]]`, a list containing a list — raises `TypeError`:
`_str_to_set` is not total, refuting the claim at this input. -/
theorem C8_counterexample :
    _str_to_set (PyValue.list [PyValue.list [PyValue.str "a"]])
      = Except.error (PyError.typeError "unhashable type") :=
  rfl

/-- C8 amended: `_str_to_set` maps a string to the singleton set containing
it (despite strings being iterable), every other scalar (`None`, `bool`,
`int`) to the singleton set containing it, and consumes any other iterable
into the duplicate-free set of its elements (a list into its elements, a
dict into its keys) — but it is total only up to hashability: a list element
that is itself a `list` or `dict` is unhashable and building the set raises
`TypeError` at it (dict keys are strings, hence always hashable). -/
theorem C8_amended_str_to_set_coercion :
    (∀ s, _str_to_set (PyValue.str s) = Except.ok [PyValue.str s])
    ∧ _str_to_set PyValue.none = Except.ok [PyValue.none]
    ∧ (∀ b, _str_to_set (PyValue.bool b) = Except.ok [PyValue.bool b])
    ∧ (∀ n, _str_to_set (PyValue.int n) = Except.ok [PyValue.int n])
    ∧ (∀ xs, (∀ x ∈ xs, PyValue.hashable x = true) →
        _str_to_set (PyValue.list xs) = Except.ok (pySet xs)
          ∧ (∀ a, a ∈ pySet xs ↔ a ∈ xs) ∧ (pySet xs).Nodup)
    ∧ (∀ xs, (∃ x ∈ xs, PyValue.hashable x = false) →
        _str_to_set (PyValue.list xs)
          = Except.error (PyError.typeError "unhashable type"))
    ∧ (∀ kvs, _str_to_set (PyValue.dict kvs)
        = Except.ok (pySet (kvs.map (fun kv => PyValue.str kv.1)))
          ∧ (pySet (kvs.map (fun kv => PyValue.str kv.1))).Nodup) := by
  refine ⟨fun s => rfl, rfl, fun b => rfl, fun n => rfl, ?_, ?_, ?_⟩
  · intro xs h
    exact ⟨pySetCheckedGo_ok xs [] h, fun a => pySet_mem xs a, pySet_nodup xs⟩
  · intro xs h
    exact pySetCheckedGo_error xs [] h
  · intro kvs
    exact ⟨rfl, pySet_nodup _⟩

/-- Witness for C8: a concrete iterable of hashable elements with a
duplicate, and a concrete iterable containing an unhashable element. -/
theorem C8_witness :
    _str_to_set (PyValue.list [PyValue.int 1, PyValue.int 1, PyValue.int 2])
      = Except.ok [PyValue.int 1, PyValue.int 2]
    ∧ _str_to_set (PyValue.list [PyValue.str "a", PyValue.list []])
      = Except.error (PyError.typeError "unhashable type") := by
  constructor
  · have h := (C8_amended_str_to_set_coercion.2.2.2.2.1
      [PyValue.int 1, PyValue.int 1, PyValue.int 2] (by decide)).1
    rw [h]
    rfl
  · exact C8_amended_str_to_set_coercion.2.2.2.2.2.1
      [PyValue.str "a", PyValue.list []] ⟨PyValue.list [], by decide, rfl⟩

/-- C10: `AnnotationsItem.from_dict` reads only the four keys `path`,
`precedence`, `SPDX-FileCopyrightText` and `SPDX-License-Identifier`: any two
records that agree on those four keys — extra keys present or not — produce
the same outcome, so unrecognised keys never fail construction or affect the
item. -/
theorem C10_from_dict_reads_only_four_keys
    (parse : PyValue → Except PyError Expression) (d1 d2 : PyDict)
    (h : ∀ k ∈ ["path", "precedence", "SPDX-FileCopyrightText",
      "SPDX-License-Identifier"], pyGet d1 k = pyGet d2 k) :
    AnnotationsItem.from_dict parse d1 = AnnotationsItem.from_dict parse d2 := by
  unfold AnnotationsItem.from_dict
  rw [h "path" (by simp), h "precedence" (by simp),
    h "SPDX-FileCopyrightText" (by simp), h "SPDX-License-Identifier" (by simp)]

/-- Witness for C10 at a concrete record: adding the unrecognised key
`comment` changes nothing. -/
theorem C10_witness :
    AnnotationsItem.from_dict pyParseStub
      [("path", PyValue.str "src/a.py"), ("precedence", PyValue.str "file"),
       ("SPDX-FileCopyrightText", PyValue.str "2023 Jane"),
       ("SPDX-License-Identifier", PyValue.str "MIT")]
    = AnnotationsItem.from_dict pyParseStub
      [("path", PyValue.str "src/a.py"), ("precedence", PyValue.str "file"),
       ("SPDX-FileCopyrightText", PyValue.str "2023 Jane"),
       ("SPDX-License-Identifier", PyValue.str "MIT"),
       ("comment", PyValue.str "ignored")] :=
  C10_from_dict_reads_only_four_keys pyParseStub _ _ (by
    intro k hk
    simp only [List.mem_cons, List.not_mem_nil, or_false] at hk
    rcases hk with rfl | rfl | rfl | rfl <;> rfl)

/-- C1 counterexample: a record whose `version` is the unsupported integer 99
is accepted by `ReuseTOML.from_dict` — no `ParseError` (nor any error) is
raised, and the document is constructed with version 99, refuting the claim
that an unsupported integer version fails construction. -/
theorem C1_counterexample :
    ReuseTOML.from_dict pyParseStub [("version", PyValue.int 99)] "REUSE.toml"
      = Except.ok ⟨"REUSE.toml", 99, []⟩ :=
  rfl

/-- C1 amended: `ReuseTOML.from_dict` checks `version` only for being an
`int` instance, never its value: when the `annotations` field processes
successfully, every integer version — supported or not, 99 included — is
accepted and stored unchanged, while a missing or non-integer version raises
`TypeError`, which is not a `GlobalLicensingParseError`. -/
theorem C1_amended_version_only_type_checked
    (parse : PyValue → Except PyError Expression) (values : PyDict)
    (source : String) (elems : List PyValue) (items : List AnnotationsItem)
    (hIter : pyIter (pyGetD values "annotations" (PyValue.list [])) = Except.ok elems)
    (hLoop : annotationsLoop parse elems = Except.ok items) :
    (∀ n, pyGet values "version" = PyValue.int n →
        ReuseTOML.from_dict parse values source = Except.ok ⟨source, n, items⟩)
    ∧ (∀ e, instanceOfInt (pyGet values "version") = Except.error e →
        ReuseTOML.from_dict parse values source = Except.error e
        ∧ PyError.isGlobalLicensingParseError e = false
        ∧ ∃ m, e = PyError.typeError m) := by
  constructor
  · intro n hv
    simp only [ReuseTOML.from_dict, hIter, hLoop, hv, instanceOfInt]
  · intro e he
    have hshape : ∃ m, e = PyError.typeError m := by
      cases hv : pyGet values "version" <;> rw [hv] at he <;>
        simp [instanceOfInt] at he <;> exact ⟨_, he.symm⟩
    refine ⟨?_, ?_, hshape⟩
    · simp only [ReuseTOML.from_dict, hIter, hLoop, he]
    · obtain ⟨m, rfl⟩ := hshape
      rfl

/-- Witness for C1 at the concrete record with `version = 99`. -/
theorem C1_witness :
    ReuseTOML.from_dict pyParseStub [("version", PyValue.int 99)] "doc/REUSE.toml"
      = Except.ok ⟨"doc/REUSE.toml", 99, []⟩ :=
  (C1_amended_version_only_type_checked pyParseStub [("version", PyValue.int 99)]
    "doc/REUSE.toml" [] [] rfl rfl).1 99 rfl

/-- Helper: `_validate_literal` only ever fails with a plain `ValueError`. -/
theorem _validate_literal_error_shape (v : PyValue) (e : PyError)
    (h : _validate_literal v = Except.error e) :
    ∃ m, e = PyError.valueError m := by
  unfold _validate_literal at h
  split at h <;>
    first
      | exact Except.noConfusion h
      | (injection h with h; exact ⟨_, h.symm⟩)

/-- C2 counterexample: with `precedence` absent and every other field valid,
`AnnotationsItem.from_dict` does fail — but with a plain Python `ValueError`
raised by `_validate_literal`, and that error is not (a subtype of)
`GlobalLicensingParseError`, refuting the claimed error kind. -/
theorem C2_counterexample :
    AnnotationsItem.from_dict pyParseStub
      [("path", PyValue.str "src/a.py"),
       ("SPDX-FileCopyrightText", PyValue.str "2023 Jane"),
       ("SPDX-License-Identifier", PyValue.str "MIT")]
      = Except.error
          (PyError.valueError
            "The value of precedence must be one of aggregate, file, toml")
    ∧ PyError.isGlobalLicensingParseError
        (PyError.valueError
          "The value of precedence must be one of aggregate, file, toml")
      = false :=
  ⟨rfl, rfl⟩

/-- C2 amended: when `precedence` is absent or outside the closed set
`aggregate`/`file`/`toml`, `AnnotationsItem.from_dict` always fails; and
whenever the converter phase succeeds on every field and the `paths`
validator passes (attrs runs every converter before any validator, so a
converter failure — e.g. an unparseable `SPDX-License-Identifier` — takes
priority), the failure is the plain `ValueError` raised by
`_validate_literal`, which is not a `GlobalLicensingParseError` (the source
has no `ValidationError` subclass of it). -/
theorem C2_amended_precedence_failure_is_plain_value_error
    (parse : PyValue → Except PyError Expression) (values : PyDict)
    (e : PyError)
    (hPrec : _validate_literal (pyGet values "precedence") = Except.error e) :
    exceptIsError (AnnotationsItem.from_dict parse values) = true
    ∧ (∀ pset cset exprs ps,
        _str_to_set (pyGet values "path") = Except.ok pset →
        _str_to_set (pyGet values "SPDX-FileCopyrightText") = Except.ok cset →
        _str_to_set_of_expr parse (pyGet values "SPDX-License-Identifier")
          = Except.ok exprs →
        _validate_set_of_str "paths" pset = Except.ok ps →
        AnnotationsItem.from_dict parse values = Except.error e
          ∧ PyError.isGlobalLicensingParseError e = false
          ∧ ∃ m, e = PyError.valueError m) := by
  have hshape := _validate_literal_error_shape _ _ hPrec
  constructor
  · cases h1 : _str_to_set (pyGet values "path") with
    | error e1 =>
        simp [AnnotationsItem.from_dict, mkAnnotationsItem, h1, exceptIsError]
    | ok pset =>
        cases h2 : _str_to_set (pyGet values "SPDX-FileCopyrightText") with
        | error e2 =>
            simp [AnnotationsItem.from_dict, mkAnnotationsItem, h1, h2,
              exceptIsError]
        | ok cset =>
            cases h3 : _str_to_set_of_expr parse
                (pyGet values "SPDX-License-Identifier") with
            | error e3 =>
                simp [AnnotationsItem.from_dict, mkAnnotationsItem, h1, h2, h3,
                  exceptIsError]
            | ok exprs =>
                cases h4 : _validate_set_of_str "paths" pset with
                | error e4 =>
                    simp [AnnotationsItem.from_dict, mkAnnotationsItem, h1, h2,
                      h3, h4, exceptIsError]
                | ok ps =>
                    simp [AnnotationsItem.from_dict, mkAnnotationsItem, h1, h2,
                      h3, h4, hPrec, exceptIsError]
  · intro pset cset exprs ps h1 h2 h3 h4
    refine ⟨?_, ?_, hshape⟩
    · simp only [AnnotationsItem.from_dict, mkAnnotationsItem, h1, h2, h3, h4,
        hPrec]
    · obtain ⟨m, rfl⟩ := hshape
      rfl

/-- Witness for C2 at a concrete record whose `precedence` is the
unrecognised string `override` and whose other fields convert and validate
cleanly. -/
theorem C2_witness :
    AnnotationsItem.from_dict pyParseStub
      [("path", PyValue.str "b.py"), ("precedence", PyValue.str "override"),
       ("SPDX-FileCopyrightText", PyValue.str "2023 Jo"),
       ("SPDX-License-Identifier", PyValue.str "MIT")]
      = Except.error
          (PyError.valueError
            "The value of precedence must be one of aggregate, file, toml")
    ∧ PyError.isGlobalLicensingParseError
        (PyError.valueError
          "The value of precedence must be one of aggregate, file, toml")
      = false :=
  ⟨((C2_amended_precedence_failure_is_plain_value_error pyParseStub
      [("path", PyValue.str "b.py"), ("precedence", PyValue.str "override"),
       ("SPDX-FileCopyrightText", PyValue.str "2023 Jo"),
       ("SPDX-License-Identifier", PyValue.str "MIT")]
      _ rfl).2 [PyValue.str "b.py"] [PyValue.str "2023 Jo"] [⟨"MIT"⟩] ["b.py"]
      rfl rfl rfl rfl).1, rfl⟩

/-- C3 counterexample: a record whose `path` field is the empty list
normalizes to an empty `paths` set, yet `AnnotationsItem` construction
SUCCEEDS (the validator only checks element types), refuting the claim that
it must fail with a validation error. -/
theorem C3_counterexample :
    AnnotationsItem.from_dict pyParseStub
      [("path", PyValue.list []), ("precedence", PyValue.str "file"),
       ("SPDX-FileCopyrightText", PyValue.str "2023 Jane"),
       ("SPDX-License-Identifier", PyValue.str "MIT")]
      = Except.ok ⟨[], Precedence.file, ["2023 Jane"], [⟨"MIT"⟩]⟩ :=
  rfl

/-- C3 amended: there is no non-emptiness check on `paths`: a `path` value
normalizing to the empty set is accepted whenever the remaining fields are
valid, and the constructed item then has an empty `paths` set.  Only the
per-element string-type check of `_validate_set_of_str` can reject the
`paths` field. -/
theorem C3_amended_empty_paths_accepted
    (parse : PyValue → Except PyError Expression) (precV cpV exprV : PyValue)
    (prec : Precedence) (cset : List PyValue) (cps : List String)
    (exprs : List Expression)
    (hPrec : _validate_literal precV = Except.ok prec)
    (hCpConv : _str_to_set cpV = Except.ok cset)
    (hCp : _validate_set_of_str "copyright_lines" cset = Except.ok cps)
    (hExpr : _str_to_set_of_expr parse exprV = Except.ok exprs) :
    mkAnnotationsItem parse (PyValue.list []) precV cpV exprV
      = Except.ok ⟨[], prec, cps, exprs⟩ := by
  have hp : _str_to_set (PyValue.list []) = Except.ok [] := rfl
  have hpv : _validate_set_of_str "paths" ([] : List PyValue)
      = Except.ok [] := rfl
  simp only [mkAnnotationsItem, hp, hCpConv, hExpr, hpv, hPrec, hCp]

/-- Witness for C3 at a concrete record with an empty `path` list and the
other fields valid. -/
theorem C3_witness :
    mkAnnotationsItem pyParseStub (PyValue.list []) (PyValue.str "toml")
      (PyValue.str "2024 Ed") (PyValue.str "Apache-2.0")
      = Except.ok ⟨[], Precedence.toml, ["2024 Ed"], [⟨"Apache-2.0"⟩]⟩ :=
  C3_amended_empty_paths_accepted pyParseStub _ _ _ Precedence.toml
    [PyValue.str "2024 Ed"] ["2024 Ed"] [⟨"Apache-2.0"⟩] rfl rfl rfl rfl

/-- C4: a UTF-8 decoding failure propagates as `UnicodeDecodeError` from both
`from_file` variants and is never wrapped into (nor is it a)
`GlobalLicensingParseError`, while structurally malformed but validly decoded
legacy input — a `DebianError` or `ValueError` from the `Copyright` parser —
is wrapped into `GlobalLicensingParseError` with the original message. -/
theorem C4_decode_error_propagates_distinct
    (copyrightParse : String → Except PyError Copyright)
    (tomlLoads : String → Except PyError PyDict)
    (parse : PyValue → Except PyError Expression) (path : String) :
    ReuseDep5.from_file (Except.error PyError.unicodeDecodeError) copyrightParse path
      = Except.error PyError.unicodeDecodeError
    ∧ ReuseTOML.from_file parse tomlLoads (Except.error PyError.unicodeDecodeError) path
      = Except.error PyError.unicodeDecodeError
    ∧ PyError.isGlobalLicensingParseError PyError.unicodeDecodeError = false
    ∧ (∀ s m,
        copyrightParse s = Except.error (PyError.debianError m)
          ∨ copyrightParse s = Except.error (PyError.valueError m) →
        ReuseDep5.from_file (Except.ok s) copyrightParse path
          = Except.error (PyError.globalLicensingParseError m)) := by
  refine ⟨rfl, rfl, rfl, ?_⟩
  intro s m h
  rcases h with h | h <;> simp [ReuseDep5.from_file, h]

/-- Witness for C4: a concrete decode failure propagates unwrapped, and a
concrete malformed-but-decoded input is wrapped into
`GlobalLicensingParseError`. -/
theorem C4_witness :
    ReuseDep5.from_file (Except.error PyError.unicodeDecodeError)
        copyrightParseStub ".reuse/dep5"
      = Except.error PyError.unicodeDecodeError
    ∧ ReuseDep5.from_file (Except.ok "malformed") copyrightParseStub ".reuse/dep5"
      = Except.error (PyError.globalLicensingParseError "not machine readable") :=
  ⟨(C4_decode_error_propagates_distinct copyrightParseStub
      (fun _ => Except.ok []) pyParseStub ".reuse/dep5").1,
   (C4_decode_error_propagates_distinct copyrightParseStub
      (fun _ => Except.ok []) pyParseStub ".reuse/dep5").2.2.2 "malformed"
      "not machine readable" (Or.inl rfl)⟩

/-- Helper: if the expression parser fails on any element of the list, the
parse loop of `_str_to_set_of_expr` fails with one of those elements' errors
(the loop stops at the first failure). -/
theorem parseExprLoop_error_of_mem
    (parse : PyValue → Except PyError Expression) (xs : List PyValue)
    (h : ∃ x ∈ xs, ∃ e, parse x = Except.error e) :
    ∃ x ∈ xs, ∃ e, parse x = Except.error e
      ∧ parseExprLoop parse xs = Except.error e := by
  induction xs with
  | nil => simp at h
  | cons y ys ih =>
      cases hy : parse y with
      | error e =>
          exact ⟨y, List.mem_cons_self y ys, e, hy, by simp [parseExprLoop, hy]⟩
      | ok v =>
          obtain ⟨x, hx, e, he⟩ := h
          rcases List.mem_cons.mp hx with rfl | hx2
          · rw [hy] at he
            exact Except.noConfusion he
          · obtain ⟨x2, hx3, e2, he2, hl⟩ := ih ⟨x, hx2, e, he⟩
            refine ⟨x2, List.mem_cons_of_mem y hx3, e2, he2, ?_⟩
            simp [parseExprLoop, hy, hl]

/-- C5: during `AnnotationsItem` construction every element of the coerced
`SPDX-License-Identifier` set is individually run through the expression
parser; when the other fields are valid (their converters and validators
succeed — attrs would run the license converter before any validator anyway)
and the parser fails on at least one element — failing, as the external
parser does, only with expression-syntax errors
(`ExpressionError`/`ParseError`) — the construction of the whole item fails
with such an error: fail-fast, no partially valid item is produced. -/
theorem C5_expression_parse_fail_fast
    (parse : PyValue → Except PyError Expression)
    (pathsV precV cpV exprV : PyValue)
    (pset : List PyValue) (ps : List String) (prec : Precedence)
    (cset : List PyValue) (cps : List String) (elems : List PyValue)
    (hPathsConv : _str_to_set pathsV = Except.ok pset)
    (hPaths : _validate_set_of_str "paths" pset = Except.ok ps)
    (hPrec : _validate_literal precV = Except.ok prec)
    (hCpConv : _str_to_set cpV = Except.ok cset)
    (hCp : _validate_set_of_str "copyright_lines" cset = Except.ok cps)
    (hConv : _str_to_set exprV = Except.ok elems)
    (hBad : ∃ x ∈ elems, ∃ e, parse x = Except.error e)
    (hKind : ∀ x ∈ elems, ∀ e, parse x = Except.error e →
        PyError.caughtByExpressionExcept e = true) :
    ∃ e, mkAnnotationsItem parse pathsV precV cpV exprV = Except.error e
      ∧ PyError.caughtByExpressionExcept e = true := by
  obtain ⟨x, hx, e, he, hl⟩ := parseExprLoop_error_of_mem parse _ hBad
  refine ⟨e, ?_, hKind x hx e he⟩
  simp only [mkAnnotationsItem, hPathsConv, hCpConv, _str_to_set_of_expr,
    hConv, hl]

/-- Witness for C5 at a concrete record whose license field contains the
dangling expression `MIT OR` next to a valid one. -/
theorem C5_witness :
    exceptIsError (mkAnnotationsItem pyParseStub (PyValue.str "a.py") (PyValue.str "aggregate")
        (PyValue.str "2023 Jane")
        (PyValue.list [PyValue.str "MIT", PyValue.str "MIT OR"])) = true
    ∧ mkAnnotationsItem pyParseStub (PyValue.str "a.py") (PyValue.str "aggregate")
        (PyValue.str "2023 Jane")
        (PyValue.list [PyValue.str "MIT", PyValue.str "MIT OR"])
      = Except.error
          (PyError.booleanParseError "dangling operator or unknown token") := by
  constructor
  · obtain ⟨e, he, hk⟩ := C5_expression_parse_fail_fast pyParseStub
      (PyValue.str "a.py") (PyValue.str "aggregate") (PyValue.str "2023 Jane")
      (PyValue.list [PyValue.str "MIT", PyValue.str "MIT OR"])
      [PyValue.str "a.py"] ["a.py"] Precedence.aggregate
      [PyValue.str "2023 Jane"] ["2023 Jane"]
      [PyValue.str "MIT", PyValue.str "MIT OR"]
      rfl rfl rfl rfl rfl rfl
      ⟨PyValue.str "MIT OR", by decide,
        PyError.booleanParseError "dangling operator or unknown token", rfl⟩
      (by
        intro x hx e he
        rcases List.mem_cons.mp hx with rfl | hx2
        · exact Except.noConfusion he
        · rcases List.mem_cons.mp hx2 with rfl | hx3
          · have h3 : Except.error (α := Expression)
                (PyError.booleanParseError "dangling operator or unknown token")
                = Except.error e := he
            injection h3 with h3
            rw [← h3]
            rfl
          · exact absurd hx3 (List.not_mem_nil x))
    rw [he]
    rfl
  · rfl

/-- C6: `ReuseDep5.reuse_info_of` first normalizes the queried path to posix
form; when the normalized path has no Files paragraph it returns the empty
`ReuseInfo` (empty license and copyright sets, no tags) as a non-error
outcome, and when a paragraph matches it returns that row's parsed license
synopsis and its whitespace-stripped copyright lines, keyed by the
normalized path. -/
theorem C6_dep5_lookup_behaviour
    (parse : PyValue → Except PyError Expression) (d : ReuseDep5) (path : String) :
    (d.dep5_copyright.find_files_paragraph (purePathAsPosix path) = Option.none →
      ReuseDep5.reuse_info_of parse d path
        = Except.ok
            { spdx_expressions := [], copyright_lines := [],
              path := Option.none, source_type := Option.none,
              source_path := Option.none })
    ∧ (∀ para expr,
        d.dep5_copyright.find_files_paragraph (purePathAsPosix path) = some para →
        parse (PyValue.str para.license_synopsis) = Except.ok expr →
        ReuseDep5.reuse_info_of parse d path
          = Except.ok
              { spdx_expressions := pySet [expr]
                copyright_lines := pySet ((pySplitlines para.copyright).map pyStrip)
                path := some (purePathAsPosix path)
                source_type := some SourceType.dep5
                source_path := some ".reuse/dep5" }) := by
  constructor
  · intro h
    simp only [ReuseDep5.reuse_info_of, h]
  · intro para expr h1 h2
    simp only [ReuseDep5.reuse_info_of, h1, h2]

/-- Witness for C6: a matched path given in non-normalized form, and an
unmatched path yielding the empty result. -/
theorem C6_witness :
    ReuseDep5.reuse_info_of pyParseStub dep5Stub "./src//main.py"
      = Except.ok
          { spdx_expressions := [⟨"MIT"⟩],
            copyright_lines := ["2023 Jane", "2024 Ed"],
            path := some "src/main.py", source_type := some SourceType.dep5,
            source_path := some ".reuse/dep5" }
    ∧ ReuseDep5.reuse_info_of pyParseStub dep5Stub "unmatched/file.txt"
      = Except.ok {} := by
  constructor
  · exact (C6_dep5_lookup_behaviour pyParseStub dep5Stub "./src//main.py").2
      ⟨"MIT", " 2023 Jane \n 2024 Ed "⟩ ⟨"MIT"⟩ rfl rfl
  · exact (C6_dep5_lookup_behaviour pyParseStub dep5Stub "unmatched/file.txt").1 rfl

/-- C9: every non-empty `ReuseInfo` produced by `ReuseDep5.reuse_info_of` is
tagged with source type `dep5` and the fixed synthetic source path
`.reuse/dep5`, regardless of the document's own `source` field (the theorem
quantifies over every document). -/
theorem C9_dep5_result_tagged
    (parse : PyValue → Except PyError Expression) (d : ReuseDep5) (path : String)
    (info : ReuseInfo)
    (hOk : ReuseDep5.reuse_info_of parse d path = Except.ok info)
    (hNonEmpty : info.spdx_expressions ≠ [] ∨ info.copyright_lines ≠ []) :
    info.source_type = some SourceType.dep5
    ∧ info.source_path = some ".reuse/dep5" := by
  cases hfind : d.dep5_copyright.find_files_paragraph (purePathAsPosix path) with
  | none =>
      simp only [ReuseDep5.reuse_info_of, hfind, Except.ok.injEq] at hOk
      subst hOk
      rcases hNonEmpty with h | h <;> exact absurd rfl h
  | some para =>
      cases hp : parse (PyValue.str para.license_synopsis) with
      | error e =>
          simp only [ReuseDep5.reuse_info_of, hfind, hp] at hOk
          exact Except.noConfusion hOk
      | ok expr =>
          simp only [ReuseDep5.reuse_info_of, hfind, hp, Except.ok.injEq] at hOk
          subst hOk
          exact ⟨rfl, rfl⟩

/-- Witness for C9: a concrete non-empty lookup result carries the `dep5` tag
and the synthetic source path, although the document's `source` is
`/work/project/.reuse/dep5`. -/
theorem C9_witness :
    ReuseDep5.reuse_info_of pyParseStub dep5Stub "src/main.py"
      = Except.ok
          { spdx_expressions := [⟨"MIT"⟩],
            copyright_lines := ["2023 Jane", "2024 Ed"],
            path := some "src/main.py", source_type := some SourceType.dep5,
            source_path := some ".reuse/dep5" }
    ∧ ReuseInfo.source_type
        { spdx_expressions := [⟨"MIT"⟩],
          copyright_lines := ["2023 Jane", "2024 Ed"],
          path := some "src/main.py", source_type := some SourceType.dep5,
          source_path := some ".reuse/dep5" }
      = some SourceType.dep5
    ∧ ReuseInfo.source_path
        { spdx_expressions := [⟨"MIT"⟩],
          copyright_lines := ["2023 Jane", "2024 Ed"],
          path := some "src/main.py", source_type := some SourceType.dep5,
          source_path := some ".reuse/dep5" }
      = some ".reuse/dep5" := by
  refine ⟨rfl, ?_⟩
  exact C9_dep5_result_tagged pyParseStub dep5Stub "src/main.py" _ rfl
    (Or.inl (by decide))
